import Mathlib

/-!
Verification of the arc-agi-benchmarking model-adapter and task-orchestrator
specification. The repository ships only the smoke-test driver
(`smoke_test_gpt5_reasoning.py`); the Adapter, Orchestrator and cost
accounting it exercises live outside the visible tree, so those parts are
modelled from the specification text, while the smoke-test control flow is
embedded from the script itself.
-/

namespace ArcAgi

/-- Modelled from the spec: the canonical `Usage` record produced by the
Model Adapter (section 3); the Adapter itself is not in the visible source.
`reasoning_tokens` is the nested reasoning count, defaulting to 0, never null. -/
structure Usage where
  prompt_tokens : Nat
  completion_tokens : Nat
  total_tokens : Nat
  reasoning_tokens : Nat
deriving Repr, DecidableEq

/-- Modelled from the spec: the `ModelConfig` pricing table, "at least
(prompt, completion, reasoning)" cost-per-token entries, each of which may be
missing. The configuration loader is not in the visible source. -/
structure Pricing where
  prompt : Option ℚ
  completion : Option ℚ
  reasoning : Option ℚ
deriving Repr, DecidableEq

/-- Modelled from the spec: the `Cost` record derived by multiplying Usage
fields by the pricing table (section 3); the computing code is not in the
visible source. -/
structure Cost where
  prompt_cost : ℚ
  completion_cost : ℚ
  reasoning_cost : ℚ
  total_cost : ℚ
deriving Repr, DecidableEq

/-- Modelled from the spec: deterministic cost computation from `Usage` and
`config.pricing` (section 4.1): each component multiplies its token count by
the corresponding pricing entry, a zero or missing pricing entry costs 0 for
that component, and `total_cost` is the sum of the three components. The
Adapter code performing this is not in the visible source. -/
def computeCost (u : Usage) (p : Pricing) : Cost :=
  let pc : ℚ := u.prompt_tokens * p.prompt.getD 0
  let cc : ℚ := u.completion_tokens * p.completion.getD 0
  let rc : ℚ := u.reasoning_tokens * p.reasoning.getD 0
  { prompt_cost := pc
    completion_cost := cc
    reasoning_cost := rc
    total_cost := pc + cc + rc }

/-- Modelled from the spec: the `api_type` enum of a `ModelConfig`
(chat-completions, responses, or other); the configuration schema is not in
the visible source. -/
inductive ApiType where
  | chatCompletions
  | responses
  | other
deriving Repr, DecidableEq

/-- Modelled from the spec: the `reasoning.effort` option (low, medium, high). -/
inductive Effort where
  | low
  | medium
  | high
deriving Repr, DecidableEq

/-- Modelled from the spec: the `reasoning.summary` option (none, concise,
detailed). -/
inductive SummaryOpt where
  | noSummary
  | concise
  | detailed
deriving Repr, DecidableEq

/-- Modelled from the spec: the provider-side output-verbosity control (the
smoke-test docstring names its maximal setting "high"). -/
inductive Verbosity where
  | low
  | medium
  | high
deriving Repr, DecidableEq

/-- Modelled from the spec: the structured `reasoning` options of a
`ModelConfig`. -/
structure ReasoningConfig where
  effort : Effort
  summary : SummaryOpt
deriving Repr, DecidableEq

/-- Modelled from the spec: a `ModelConfig` (section 3) — identity, provider
model name, API flavor, provider, pricing table, optional reasoning options,
and an optional explicitly configured output-verbosity default. The
configuration loader is not in the visible source. -/
structure ModelConfig where
  name : String
  model_name : String
  api_type : ApiType
  provider : String
  pricing : Pricing
  reasoning : Option ReasoningConfig
  verbosity : Option Verbosity
deriving Repr, DecidableEq

/-- Modelled from the spec: the provider request the Adapter constructs from
a prompt and a `ModelConfig` (section 4.1); the request-building Adapter code
is not in the visible source. -/
structure ProviderRequest where
  model : String
  input : String
  reasoning_effort : Option Effort
  reasoning_summary : Option SummaryOpt
  text_verbosity : Option Verbosity
deriving Repr, DecidableEq

/-- Modelled from the spec: Adapter request construction (section 4.1). For
the richer "responses" flavor it propagates `reasoning.effort` and
`reasoning.summary` into the request and forces the output-verbosity control
to its maximal setting whenever a `reasoning.summary` of "detailed" is
requested; otherwise the explicitly configured verbosity default is used.
The Adapter code is not in the visible source. -/
def buildRequest (config : ModelConfig) (prompt : String) : ProviderRequest :=
  match config.api_type with
  | ApiType.responses =>
      let rsum := config.reasoning.map ReasoningConfig.summary
      let verb := if rsum = some SummaryOpt.detailed then some Verbosity.high
                  else config.verbosity
      { model := config.model_name
        input := prompt
        reasoning_effort := config.reasoning.map ReasoningConfig.effort
        reasoning_summary := rsum
        text_verbosity := verb }
  | _ =>
      { model := config.model_name
        input := prompt
        reasoning_effort := none
        reasoning_summary := none
        text_verbosity := config.verbosity }

/-- Metadata attached to an `Attempt` (section 3): model, provider, usage,
cost, and the optional reasoning summary trace. Embedded from the fields the
smoke-test script reads (`attempt.metadata.*`). -/
structure AttemptMetadata where
  model : String
  provider : String
  usage : Usage
  cost : Cost
  reasoning_summary : Option String
deriving Repr, DecidableEq

/-- One recorded model response with provenance metadata, as read by the
smoke-test script (`attempt.answer`, `attempt.metadata`). -/
structure Attempt where
  answer : String
  metadata : AttemptMetadata
deriving Repr, DecidableEq

/-- Modelled from the spec: the possible outcomes of one Adapter call
(section 4.1) — an `Attempt` on success, or one of the typed errors
`ProviderError` (transient, retried), `ConfigError` and `ParseError`
(fatal for the slot, not retried). The Adapter code is not in the visible
source. -/
inductive AdapterOutcome where
  | success (a : Attempt)
  | providerError
  | configError
  | parseError
deriving Repr, DecidableEq

/-- Modelled from the spec: the bounded retry loop the Orchestrator runs for
one attempt slot (section 4.2). `responses j` is the outcome of the j-th
Adapter call for this slot; the loop makes up to `budget` calls: success
stores the Attempt and stops, `ProviderError` retries, `ConfigError` and
`ParseError` stop without retry. Returns the stored value (null on
exhaustion or fatal error) together with the number of Adapter calls made.
The Orchestrator code is not in the visible source. -/
def runSlot (responses : Nat → AdapterOutcome) : Nat → Nat → Option Attempt × Nat
  | 0, _ => (none, 0)
  | b + 1, j =>
      match responses j with
      | AdapterOutcome.success a => (some a, 1)
      | AdapterOutcome.providerError =>
          let rest := runSlot responses b (j + 1)
          (rest.1, rest.2 + 1)
      | AdapterOutcome.configError => (none, 1)
      | AdapterOutcome.parseError => (none, 1)

/-- The key under which slot `k` (1-based) is stored in a TaskResult. -/
def slotKey (k : Nat) : String := "attempt_" ++ toString k

/-- Modelled from the spec: `generate_task_solution` assembling the
TaskResult (section 4.2): for each of `num_attempts` slots (1-based, in
request order) it runs the bounded retry loop and stores the resulting
Attempt-or-null under `attempt_k`; one slot's exhaustion never aborts the
others. `responses i j` is the outcome of the j-th Adapter call of slot
`i + 1`. The Orchestrator code is not in the visible source. -/
def generateTaskSolution (responses : Nat → Nat → AdapterOutcome)
    (num_attempts retry_attempts : Nat) : List (String × Option Attempt) :=
  (List.range num_attempts).map
    (fun i => (slotKey (i + 1), (runSlot (responses i) retry_attempts 0).1))

/-- Modelled from the spec: persisting a TaskResult as the submission
artifact for `task_id` (section 4.2). The store maps a task id to the bytes
of its artifact; when an artifact already exists and `overwrite` is false the
write is skipped (with a warning), leaving the store unchanged. The
persistence code is not in the visible source. -/
def writeSubmission (store : String → Option String) (task_id content : String)
    (overwrite : Bool) : String → Option String :=
  match store task_id, overwrite with
  | some _, false => store
  | _, _ => fun t => if t = task_id then some content else store t

/-- Observable outcome of one run of the smoke-test `main`
(`smoke_test_gpt5_reasoning.py`): the process exit code, whether
"SMOKE TEST PASSED" was logged, whether "SMOKE TEST FAILED" was logged, and
whether the missing-reasoning-summary warning was logged. -/
structure SmokeLog where
  exit_code : Nat
  passed_logged : Bool
  failed_logged : Bool
  warned_no_summary : Bool
deriving Repr, DecidableEq

/-- Python truthiness of the optional `reasoning_summary` field: absent or
the empty string is falsy. -/
def truthySummary : Option String → Bool
  | some s => s != ""
  | none => false

/-- The control flow of `main` in `smoke_test_gpt5_reasoning.py`, embedded
over the outcome of `adapter.make_prediction`. On an exception the handler
logs the failure and calls `sys.exit(1)`; on success the script warns when
no (or an empty) reasoning summary is present, then logs
"SMOKE TEST PASSED" and returns normally (implicit exit code 0). -/
def smokeMain (pred : Except String Attempt) : SmokeLog :=
  match pred with
  | Except.error _ =>
      { exit_code := 1
        passed_logged := false
        failed_logged := true
        warned_no_summary := false }
  | Except.ok a =>
      { exit_code := 0
        passed_logged := true
        failed_logged := false
        warned_no_summary := !truthySummary a.metadata.reasoning_summary }

/-- If every Adapter call of a slot yields `ProviderError`, the retry loop
exhausts its whole budget: it makes exactly `budget` calls and stores null. -/
lemma runSlot_const_providerError (responses : Nat → AdapterOutcome)
    (h : ∀ j, responses j = AdapterOutcome.providerError) :
    ∀ budget j, runSlot responses budget j = (none, budget) := by
  intro budget
  induction budget with
  | zero => intro j; rfl
  | succ b ih =>
      intro j
      simp only [runSlot, h j, ih (j + 1)]

/-- Claim C1: for every computed Cost record, `total_cost` equals
`prompt_cost + completion_cost + reasoning_cost`, and the reasoning term is 0
when the reasoning pricing entry is absent. -/
theorem cost_total_is_sum (u : Usage) (p : Pricing) :
    (computeCost u p).total_cost =
      (computeCost u p).prompt_cost + (computeCost u p).completion_cost +
        (computeCost u p).reasoning_cost ∧
    (p.reasoning = none → (computeCost u p).reasoning_cost = 0) := by
  constructor
  · rfl
  · intro h
    simp [computeCost, h]

/-- Witness for C1 at a concrete Usage and a pricing table with an absent
reasoning entry. -/
theorem cost_total_is_sum_witness :
    (computeCost ⟨10, 5, 15, 2⟩ ⟨some 3, some 2, none⟩).total_cost =
      (computeCost ⟨10, 5, 15, 2⟩ ⟨some 3, some 2, none⟩).prompt_cost +
        (computeCost ⟨10, 5, 15, 2⟩ ⟨some 3, some 2, none⟩).completion_cost +
        (computeCost ⟨10, 5, 15, 2⟩ ⟨some 3, some 2, none⟩).reasoning_cost ∧
    (computeCost ⟨10, 5, 15, 2⟩ ⟨some 3, some 2, none⟩).reasoning_cost = 0 :=
  ⟨(cost_total_is_sum ⟨10, 5, 15, 2⟩ ⟨some 3, some 2, none⟩).1,
   (cost_total_is_sum ⟨10, 5, 15, 2⟩ ⟨some 3, some 2, none⟩).2 rfl⟩

/-- Claim C2: for every ModelConfig of the "responses" API flavor whose
`reasoning.summary` is "detailed", the constructed request carries the
maximal output-verbosity setting, regardless of any explicitly configured
lower verbosity default. -/
theorem detailed_summary_forces_max_verbosity (config : ModelConfig)
    (prompt : String) (r : ReasoningConfig)
    (hapi : config.api_type = ApiType.responses)
    (hr : config.reasoning = some r)
    (hs : r.summary = SummaryOpt.detailed) :
    (buildRequest config prompt).text_verbosity = some Verbosity.high := by
  simp [buildRequest, hapi, hr, hs]

/-- Witness for C2 at a concrete config that explicitly sets the lower
verbosity default `low`. -/
theorem detailed_summary_forces_max_verbosity_witness :
    (buildRequest
      { name := "gpt-5-nano-2025-08-07-minimal"
        model_name := "gpt-5-nano"
        api_type := ApiType.responses
        provider := "openai"
        pricing := ⟨some 1, some 2, some 3⟩
        reasoning := some ⟨Effort.low, SummaryOpt.detailed⟩
        verbosity := some Verbosity.low }
      "What is 2 + 2?").text_verbosity = some Verbosity.high :=
  detailed_summary_forces_max_verbosity
    { name := "gpt-5-nano-2025-08-07-minimal"
      model_name := "gpt-5-nano"
      api_type := ApiType.responses
      provider := "openai"
      pricing := ⟨some 1, some 2, some 3⟩
      reasoning := some ⟨Effort.low, SummaryOpt.detailed⟩
      verbosity := some Verbosity.low }
    "What is 2 + 2?" ⟨Effort.low, SummaryOpt.detailed⟩ rfl rfl rfl

/-- Claim C3: a slot whose Adapter calls all raise `ProviderError` gets
exactly `retry_attempts` calls, stores null under its key, and the
Orchestrator still produces all `num_attempts` slots. -/
theorem provider_error_slot_exhausts_retries
    (responses : Nat → Nat → AdapterOutcome) (N R i : Nat) (hi : i < N)
    (h : ∀ j, responses i j = AdapterOutcome.providerError) :
    (runSlot (responses i) R 0).2 = R ∧
    (runSlot (responses i) R 0).1 = none ∧
    (slotKey (i + 1), (none : Option Attempt)) ∈ generateTaskSolution responses N R ∧
    (generateTaskSolution responses N R).length = N := by
  have hrun := runSlot_const_providerError (responses i) h R 0
  refine ⟨by rw [hrun], by rw [hrun], ?_, by simp [generateTaskSolution]⟩
  exact List.mem_map.2 ⟨i, List.mem_range.2 hi, by rw [hrun]⟩

/-- Witness for C3: two slots, three retries, slot 0 always raising
`ProviderError`. -/
theorem provider_error_slot_exhausts_retries_witness :
    (runSlot (fun _ => AdapterOutcome.providerError) 3 0).2 = 3 ∧
    (runSlot (fun _ => AdapterOutcome.providerError) 3 0).1 = none ∧
    (slotKey 1, (none : Option Attempt)) ∈
      generateTaskSolution (fun _ _ => AdapterOutcome.providerError) 2 3 ∧
    (generateTaskSolution (fun _ _ => AdapterOutcome.providerError) 2 3).length = 2 :=
  provider_error_slot_exhausts_retries (fun _ _ => AdapterOutcome.providerError)
    2 3 0 (by decide) (fun _ => rfl)

/-- Claim C4: a slot whose first Adapter call raises `ConfigError` gets
exactly one call (no retry) and stores null under its key. -/
theorem config_error_slot_single_call
    (responses : Nat → Nat → AdapterOutcome) (N R i : Nat) (hi : i < N)
    (hR : 0 < R) (h0 : responses i 0 = AdapterOutcome.configError) :
    runSlot (responses i) R 0 = (none, 1) ∧
    (slotKey (i + 1), (none : Option Attempt)) ∈ generateTaskSolution responses N R := by
  obtain ⟨b, rfl⟩ : ∃ b, R = b + 1 := ⟨R - 1, (Nat.succ_pred_eq_of_pos hR).symm⟩
  have hrun : runSlot (responses i) (b + 1) 0 = (none, 1) := by
    simp only [runSlot, h0]
  exact ⟨hrun, List.mem_map.2 ⟨i, List.mem_range.2 hi, by rw [hrun]⟩⟩

/-- Witness for C4: two slots, three retries, slot 1 raising `ConfigError`
on its first call. -/
theorem config_error_slot_single_call_witness :
    runSlot (fun _ => AdapterOutcome.configError) 3 0 = (none, 1) ∧
    (slotKey 2, (none : Option Attempt)) ∈
      generateTaskSolution (fun _ _ => AdapterOutcome.configError) 2 3 :=
  config_error_slot_single_call (fun _ _ => AdapterOutcome.configError)
    2 3 1 (by decide) (by decide) rfl

/-- Claim C5: for every `num_attempts` N, the TaskResult has exactly the
keys `attempt_1` through `attempt_N`, 1-based, dense, in order, with no gaps
and no extra keys. -/
theorem taskresult_keys_dense (responses : Nat → Nat → AdapterOutcome)
    (N R : Nat) :
    (generateTaskSolution responses N R).map Prod.fst =
      (List.range N).map (fun i => slotKey (i + 1)) := by
  simp [generateTaskSolution]

/-- Claim C6: writing a submission for a task whose artifact already exists,
with overwrite disabled, leaves the whole store byte-identical. -/
theorem overwrite_false_skips_write (store : String → Option String)
    (task_id content old : String) (h : store task_id = some old) :
    writeSubmission store task_id content false = store := by
  simp only [writeSubmission, h]

/-- Witness for C6 at a concrete store holding an existing artifact. -/
theorem overwrite_false_skips_write_witness :
    writeSubmission (fun _ => some "old bytes") "task1" "new bytes" false =
      (fun _ => some "old bytes") :=
  overwrite_false_skips_write (fun _ => some "old bytes") "task1" "new bytes"
    "old bytes" rfl

/-- Claim C7: a Usage with zero reasoning tokens yields `reasoning_cost = 0`
for any pricing table. -/
theorem zero_reasoning_tokens_zero_cost (u : Usage) (p : Pricing)
    (h : u.reasoning_tokens = 0) : (computeCost u p).reasoning_cost = 0 := by
  simp [computeCost, h]

/-- Witness for C7 at a concrete Usage with zero reasoning tokens and a
nonzero reasoning price. -/
theorem zero_reasoning_tokens_zero_cost_witness :
    (computeCost ⟨7, 4, 11, 0⟩ ⟨some 1, some 2, some 5⟩).reasoning_cost = 0 :=
  zero_reasoning_tokens_zero_cost ⟨7, 4, 11, 0⟩ ⟨some 1, some 2, some 5⟩ rfl

/-- Claim C8: cost computation is total and deterministic (`computeCost` is
a Lean function, hence never raises and is deterministic), and a missing or
zero pricing entry yields cost 0 for that component. -/
theorem cost_missing_or_zero_entry (u : Usage) (p : Pricing) :
    ((p.prompt = none ∨ p.prompt = some 0) → (computeCost u p).prompt_cost = 0) ∧
    ((p.completion = none ∨ p.completion = some 0) →
      (computeCost u p).completion_cost = 0) ∧
    ((p.reasoning = none ∨ p.reasoning = some 0) →
      (computeCost u p).reasoning_cost = 0) := by
  refine ⟨fun h => ?_, fun h => ?_, fun h => ?_⟩ <;>
    rcases h with h | h <;> simp [computeCost, h]

/-- Witness for C8 at a concrete Usage with a pricing table mixing missing
and zero entries. -/
theorem cost_missing_or_zero_entry_witness :
    (computeCost ⟨9, 6, 15, 3⟩ ⟨none, some 0, none⟩).prompt_cost = 0 ∧
    (computeCost ⟨9, 6, 15, 3⟩ ⟨none, some 0, none⟩).completion_cost = 0 ∧
    (computeCost ⟨9, 6, 15, 3⟩ ⟨none, some 0, none⟩).reasoning_cost = 0 :=
  ⟨(cost_missing_or_zero_entry ⟨9, 6, 15, 3⟩ ⟨none, some 0, none⟩).1 (Or.inl rfl),
   (cost_missing_or_zero_entry ⟨9, 6, 15, 3⟩ ⟨none, some 0, none⟩).2.1 (Or.inr rfl),
   (cost_missing_or_zero_entry ⟨9, 6, 15, 3⟩ ⟨none, some 0, none⟩).2.2 (Or.inl rfl)⟩

/-- Claim C9: if `make_prediction` raises, the smoke test's `main` catches
the exception (the embedding is a total function, so nothing propagates),
logs the failure, and exits with code 1. -/
theorem smoke_exception_exits_one (e : String) :
    smokeMain (Except.error e) =
      { exit_code := 1
        passed_logged := false
        failed_logged := true
        warned_no_summary := false } := rfl

/-- Claim C10: a successful prediction whose Attempt carries no (or an
empty) reasoning summary still completes `main` normally with
"SMOKE TEST PASSED" and exit code 0; the absence is logged only as a
warning. -/
theorem smoke_missing_summary_still_passes (a : Attempt)
    (h : a.metadata.reasoning_summary = none ∨
      a.metadata.reasoning_summary = some "") :
    smokeMain (Except.ok a) =
      { exit_code := 0
        passed_logged := true
        failed_logged := false
        warned_no_summary := true } := by
  rcases h with h | h <;> simp [smokeMain, truthySummary, h]

/-- Witness for C10 at a concrete successful Attempt without a reasoning
summary. -/
theorem smoke_missing_summary_still_passes_witness :
    smokeMain (Except.ok
      { answer := "4"
        metadata :=
          { model := "gpt-5-nano"
            provider := "openai"
            usage := ⟨7, 4, 11, 0⟩
            cost := ⟨1, 2, 0, 3⟩
            reasoning_summary := none } }) =
      { exit_code := 0
        passed_logged := true
        failed_logged := false
        warned_no_summary := true } :=
  smoke_missing_summary_still_passes
    { answer := "4"
      metadata :=
        { model := "gpt-5-nano"
          provider := "openai"
          usage := ⟨7, 4, 11, 0⟩
          cost := ⟨1, 2, 0, 3⟩
          reasoning_summary := none } }
    (Or.inl rfl)

end ArcAgi
